import Mathlib

/-!
Verification of the landscape-client excerpt

A shallow embedding, in Lean 4, of the parts of the landscape-client
repository excerpt that the checked properties talk about:

* `landscape/lib/fs.py` — `create_file` / `read_file` (file contents are
  modelled as lists of bytes, text as lists of Unicode scalar values, and
  the UTF-8 codec is modelled explicitly);
* `landscape/lib/vm_info.py` — `get_vm_info` (the filesystem probed by the
  function is modelled as a record of the marker files it inspects);
* `landscape/broker/registration.py` — `RegistrationHandler`
  (`should_register`, `_handle_pre_exchange`, `_handle_set_id`) and
  `RegistrationResponse`;
* `landscape/configuration.py` — `setup` (external effects are recorded as
  an ordered action trace);
* the storage-usage (ceph) monitor plugin's exchange behaviour.

The Python dialect of the excerpt is Python 2 (`configuration.py` uses
`raw_input` and `except Exception, e`, which are Python-2-only), so
Python-2 semantics are used where the two dialects differ: in particular
`filter`/`map` return lists, so `filter(...)` in a boolean context tests
for a non-empty result.

Python truthiness of optional string values (`None` and `""` are both
falsy) is modelled by the `truthy` predicate below.
-/

/-! ## Python truthiness for optional strings -/

/-- Python truthiness of a value that is either `None` or a string:
`None` and the empty string are falsy, any other string is truthy. -/
def truthy : Option String → Bool
  | none => false
  | some s => !s.isEmpty

/-! ## UTF-8 codec

`landscape/lib/fs.py` reads files in binary mode and decodes the bytes as
UTF-8 (`content.decode('utf-8')`); `create_file` writes the text content
out, i.e. stores its UTF-8 encoding as the file's bytes.  The codec is
modelled over lists of natural numbers: a text is a list of Unicode scalar
values, a file is a list of bytes. -/

/-- A Unicode scalar value: any code point outside the surrogate range
`0xD800`–`0xDFFF` and below `0x110000`.  These are exactly the code points
that the UTF-8 codec round-trips. -/
def isScalarValue (c : Nat) : Prop :=
  c < 0x110000 ∧ (c < 0xD800 ∨ 0xDFFF < c)

instance (c : Nat) : Decidable (isScalarValue c) := by
  unfold isScalarValue; infer_instance

/-- UTF-8 encoding of a single Unicode scalar value (1 to 4 bytes). -/
def utf8EncodeChar (c : Nat) : List Nat :=
  if c < 0x80 then [c]
  else if c < 0x800 then
    [0xC0 + c / 0x40, 0x80 + c % 0x40]
  else if c < 0x10000 then
    [0xE0 + c / 0x1000, 0x80 + c / 0x40 % 0x40, 0x80 + c % 0x40]
  else
    [0xF0 + c / 0x40000, 0x80 + c / 0x1000 % 0x40, 0x80 + c / 0x40 % 0x40,
     0x80 + c % 0x40]

/-- UTF-8 encoding of a text (a list of Unicode scalar values). -/
def utf8Encode (cs : List Nat) : List Nat :=
  (cs.map utf8EncodeChar).flatten

/-- Is `b` a UTF-8 continuation byte (`0b10xxxxxx`)? -/
def isCont (b : Nat) : Bool :=
  decide (0x80 ≤ b ∧ b < 0xC0)

/-- Strict UTF-8 decoding of the first scalar value of a byte list,
returning it with the remaining bytes, or `none` on any malformed head
(truncated sequence, stray continuation byte, overlong encoding,
surrogate, code point above `0x10FFFF`) and on the empty list. -/
def utf8DecodeOne : List Nat → Option (Nat × List Nat)
  | [] => none
  | b0 :: rest =>
    if b0 < 0x80 then some (b0, rest)
    else if b0 < 0xE0 then
      match rest with
      | b1 :: rest1 =>
        if 0xC2 ≤ b0 ∧ isCont b1 then
          some ((b0 - 0xC0) * 0x40 + (b1 - 0x80), rest1)
        else none
      | [] => none
    else if b0 < 0xF0 then
      match rest with
      | b1 :: b2 :: rest2 =>
        let c := (b0 - 0xE0) * 0x1000 + (b1 - 0x80) * 0x40 + (b2 - 0x80)
        if isCont b1 ∧ isCont b2 ∧ 0x800 ≤ c ∧ (c < 0xD800 ∨ 0xDFFF < c) then
          some (c, rest2)
        else none
      | _ => none
    else if b0 < 0xF5 then
      match rest with
      | b1 :: b2 :: b3 :: rest3 =>
        let c := (b0 - 0xF0) * 0x40000 + (b1 - 0x80) * 0x1000
                 + (b2 - 0x80) * 0x40 + (b3 - 0x80)
        if isCont b1 ∧ isCont b2 ∧ isCont b3
            ∧ 0x10000 ≤ c ∧ c < 0x110000 then
          some (c, rest3)
        else none
      | _ => none
    else none

/-- Decoding one scalar value consumes at least one byte. -/
theorem utf8DecodeOne_length {l : List Nat} {c : Nat} {rest : List Nat}
    (h : utf8DecodeOne l = some (c, rest)) : rest.length < l.length := by
  match l with
  | [] => simp [utf8DecodeOne] at h
  | b0 :: t =>
    simp only [utf8DecodeOne] at h
    repeat' split at h
    all_goals simp_all
    all_goals omega

/-- Strict UTF-8 decoding of a byte list into a list of Unicode scalar
values: repeated `utf8DecodeOne`, failing as soon as it fails on a
non-empty remainder. -/
def utf8Decode (l : List Nat) : Option (List Nat) :=
  if l.isEmpty then some []
  else
    match h : utf8DecodeOne l with
    | none => none
    | some (c, rest) => (utf8Decode rest).map (fun cs => c :: cs)
termination_by l.length
decreasing_by exact utf8DecodeOne_length h

/-- Decoding the empty byte list with `utf8Decode` yields the empty text. -/
theorem utf8Decode_nil : utf8Decode [] = some [] := by
  rw [utf8Decode.eq_def]; rfl

/-- One successful `utf8DecodeOne` step unfolds `utf8Decode`. -/
theorem utf8Decode_step {l : List Nat} {c : Nat} {rest : List Nat}
    (h : utf8DecodeOne l = some (c, rest)) :
    utf8Decode l = (utf8Decode rest).map (fun cs => c :: cs) := by
  have hne : l.isEmpty = false := by
    cases l with
    | nil => simp [utf8DecodeOne] at h
    | cons a t => rfl
  rw [utf8Decode.eq_def, hne]
  simp only [Bool.false_eq_true, if_false]
  split
  · rename_i heq
    rw [h] at heq
    cases heq
  · rename_i c' rest' heq
    rw [h] at heq
    cases heq
    rfl

/-! ## `landscape/lib/fs.py` -/

/-- The byte-level part of `read_file(path, limit)`.  The file's content is the byte
list `content`; `limit=None` is `none`.  Mirrors:

    with open(path, "rb") as fd:
        if limit and os.path.getsize(path) > abs(limit):
            whence = 0
            if limit < 0:
                whence = 2
            fd.seek(limit, whence)
        content = fd.read()

A positive `limit` seeks to offset `limit` from the start and reads to the
end of the file (i.e. drops the first `limit` bytes); a negative `limit`
seeks to `|limit|` before the end and reads the last `|limit|` bytes.
`limit = 0` is falsy in Python, so no seek happens. -/
def readFileBytes (content : List Nat) (limit : Option Int) : List Nat :=
  match limit with
  | none => content
  | some l =>
    if l ≠ 0 ∧ (content.length : Int) > |l| then
      if l < 0 then
        content.drop (content.length - l.natAbs)
      else
        content.drop l.toNat
    else content

/-- The function `read_file(path, limit)`: the bytes selected by `readFileBytes`,
decoded as UTF-8 (`content.decode('utf-8')`). -/
def read_file (content : List Nat) (limit : Option Int) : Option (List Nat) :=
  utf8Decode (readFileBytes content limit)

/-- The function `create_file(path, content)`: the bytes stored on disk are the UTF-8
encoding of the text content (`open(path, "w").write(content)`). -/
def create_file (text : List Nat) : List Nat :=
  utf8Encode text

/-! ## UTF-8 round trip -/

/-- Decoding reads back a single encoded scalar value and leaves
the byte tail untouched. -/
theorem utf8DecodeOne_encodeChar (c : Nat) (h : isScalarValue c)
    (rest : List Nat) :
    utf8DecodeOne (utf8EncodeChar c ++ rest) = some (c, rest) := by
  obtain ⟨hlt, hsur⟩ := h
  unfold utf8EncodeChar
  by_cases h1 : c < 0x80
  · simp [h1, utf8DecodeOne]
  · by_cases h2 : c < 0x800
    · simp only [if_neg h1, if_pos h2, List.cons_append, List.nil_append,
        utf8DecodeOne]
      have e1 : ¬ (0xC0 + c / 0x40 < 0x80) := by omega
      have e2 : 0xC0 + c / 0x40 < 0xE0 := by omega
      have e3 : 0xC2 ≤ 0xC0 + c / 0x40 := by omega
      have e4 : isCont (0x80 + c % 0x40) = true := by
        unfold isCont; apply decide_eq_true; omega
      rw [if_neg e1, if_pos e2, if_pos (by exact ⟨e3, e4⟩)]
      have e5 : (0xC0 + c / 0x40 - 0xC0) * 0x40 + (0x80 + c % 0x40 - 0x80)
          = c := by omega
      rw [e5]
    · by_cases h3 : c < 0x10000
      · simp only [if_neg h1, if_neg h2, if_pos h3, List.cons_append,
          List.nil_append, utf8DecodeOne]
        have e1 : ¬ (0xE0 + c / 0x1000 < 0x80) := by omega
        have e2 : ¬ (0xE0 + c / 0x1000 < 0xE0) := by omega
        have e3 : 0xE0 + c / 0x1000 < 0xF0 := by omega
        rw [if_neg e1, if_neg e2, if_pos e3]
        have ec1 : isCont (0x80 + c / 0x40 % 0x40) = true := by
          unfold isCont; apply decide_eq_true; omega
        have ec2 : isCont (0x80 + c % 0x40) = true := by
          unfold isCont; apply decide_eq_true; omega
        have e5 : (0xE0 + c / 0x1000 - 0xE0) * 0x1000
            + (0x80 + c / 0x40 % 0x40 - 0x80) * 0x40 + (0x80 + c % 0x40 - 0x80)
            = c := by omega
        rw [if_pos (by exact ⟨ec1, ec2, by omega, by omega⟩), e5]
      · simp only [if_neg h1, if_neg h2, if_neg h3, List.cons_append,
          List.nil_append, utf8DecodeOne]
        have e1 : ¬ (0xF0 + c / 0x40000 < 0x80) := by omega
        have e2 : ¬ (0xF0 + c / 0x40000 < 0xE0) := by omega
        have e3 : ¬ (0xF0 + c / 0x40000 < 0xF0) := by omega
        have e4 : 0xF0 + c / 0x40000 < 0xF5 := by omega
        rw [if_neg e1, if_neg e2, if_neg e3, if_pos e4]
        have ec1 : isCont (0x80 + c / 0x1000 % 0x40) = true := by
          unfold isCont; apply decide_eq_true; omega
        have ec2 : isCont (0x80 + c / 0x40 % 0x40) = true := by
          unfold isCont; apply decide_eq_true; omega
        have ec3 : isCont (0x80 + c % 0x40) = true := by
          unfold isCont; apply decide_eq_true; omega
        have e5 : (0xF0 + c / 0x40000 - 0xF0) * 0x40000
            + (0x80 + c / 0x1000 % 0x40 - 0x80) * 0x1000
            + (0x80 + c / 0x40 % 0x40 - 0x80) * 0x40 + (0x80 + c % 0x40 - 0x80)
            = c := by omega
        rw [if_pos (by exact ⟨ec1, ec2, ec3, by omega, by omega⟩), e5]

/-- Decoding a single encoded scalar value prepended to any byte tail
resumes decoding on the tail. -/
theorem utf8Decode_encodeChar_append (c : Nat) (h : isScalarValue c)
    (rest : List Nat) :
    utf8Decode (utf8EncodeChar c ++ rest)
      = (utf8Decode rest).map (fun cs => c :: cs) :=
  utf8Decode_step (utf8DecodeOne_encodeChar c h rest)

/-- UTF-8 decoding inverts UTF-8 encoding on every text made of Unicode
scalar values. -/
theorem utf8Decode_utf8Encode (cs : List Nat)
    (h : ∀ c ∈ cs, isScalarValue c) :
    utf8Decode (utf8Encode cs) = some cs := by
  induction cs with
  | nil => exact utf8Decode_nil
  | cons c cs ih =>
    have hc : isScalarValue c := h c (List.mem_cons_self c cs)
    have hcs : ∀ x ∈ cs, isScalarValue x :=
      fun x hx => h x (List.mem_cons_of_mem c hx)
    have : utf8Encode (c :: cs) = utf8EncodeChar c ++ utf8Encode cs := by
      simp [utf8Encode]
    rw [this, utf8Decode_encodeChar_append c hc, ih hcs]
    rfl

/-- UTF-8 decoding is the identity on lists of ASCII bytes. -/
theorem utf8Decode_ascii (l : List Nat) (h : ∀ b ∈ l, b < 0x80) :
    utf8Decode l = some l := by
  induction l with
  | nil => exact utf8Decode_nil
  | cons b t ih =>
    have hb : b < 0x80 := h b (List.mem_cons_self b t)
    have hstep : utf8DecodeOne (b :: t) = some (b, t) := by
      simp [utf8DecodeOne, hb]
    rw [utf8Decode_step hstep, ih (fun x hx => h x (List.mem_cons_of_mem b hx))]
    rfl

/-- If the file is not strictly longer than `|limit|`, `read_file` does not
seek at all and returns the whole file. -/
theorem readFileBytes_whole (content : List Nat) (l : Int)
    (h : content.length ≤ l.natAbs) :
    readFileBytes content (some l) = content := by
  have hneg : ¬ (l ≠ 0 ∧ (content.length : Int) > |l|) := by
    rintro ⟨h0, hgt⟩
    rw [Int.abs_eq_natAbs] at hgt
    omega
  simp only [readFileBytes]
  rw [if_neg hneg]

/-! ## Claims about `landscape/lib/fs.py` -/

/-- C1: the claim says that for a file longer than `n` bytes,
`read_file(path, n)` with positive `n` returns the first `n` bytes decoded
as UTF-8, and `read_file(path, -n)` returns the last `n` bytes.  The code
(and its own docstring's promise for the positive case) disagree: for a
positive limit the code seeks to offset `n` and reads to the end of the
file, returning everything *except* the first `n` bytes.  On the 6-byte
file `"abcdef"` with limit `2` the code yields `"cdef"`, not `"ab"`; the
negative case behaves as documented. -/
theorem read_file_positive_limit_bug :
    readFileBytes [97, 98, 99, 100, 101, 102] (some 2) = [99, 100, 101, 102]
    ∧ read_file [97, 98, 99, 100, 101, 102] (some 2)
        = some [99, 100, 101, 102]
    ∧ read_file [97, 98, 99, 100, 101, 102] (some 2) ≠ some [97, 98]
    ∧ read_file [97, 98, 99, 100, 101, 102] (some (-2))
        = some [101, 102] := by
  have h1 : readFileBytes [97, 98, 99, 100, 101, 102] (some 2)
      = [99, 100, 101, 102] := by decide
  have h2 : readFileBytes [97, 98, 99, 100, 101, 102] (some (-2))
      = [101, 102] := by decide
  refine ⟨h1, ?_, ?_, ?_⟩
  · unfold read_file
    rw [h1]
    exact utf8Decode_ascii _ (by decide)
  · unfold read_file
    rw [h1, utf8Decode_ascii _ (by decide)]
    decide
  · unfold read_file
    rw [h2]
    exact utf8Decode_ascii _ (by decide)

/-- C9: writing a UTF-8 text with `create_file` and reading it back with
`read_file` and no limit returns exactly that text (the stored bytes are
read in full and UTF-8 decoding inverts the encoding). -/
theorem create_then_read_roundtrip (text : List Nat)
    (h : ∀ c ∈ text, isScalarValue c) :
    read_file (create_file text) none = some text := by
  unfold read_file create_file readFileBytes
  exact utf8Decode_utf8Encode text h

/-- C9 witness: round trip on a concrete text containing a 1-, 2-, 3- and
4-byte scalar value. -/
theorem create_then_read_roundtrip_witness :
    (∀ c ∈ [104, 233, 0x4E2D, 0x1F600], isScalarValue c)
    ∧ read_file (create_file [104, 233, 0x4E2D, 0x1F600]) none
        = some [104, 233, 0x4E2D, 0x1F600] :=
  ⟨by decide, create_then_read_roundtrip [104, 233, 0x4E2D, 0x1F600] (by decide)⟩

/-- C10: when `|limit|` equals the file size exactly (and more generally
whenever the file is not strictly larger than `|limit|`), `read_file`
performs no seek and returns the whole file; the content is modified only
when the file is strictly larger than `|limit|`. -/
theorem read_file_limit_not_exceeded (content : List Nat) (l : Int)
    (h : content.length ≤ l.natAbs) :
    readFileBytes content (some l) = content
    ∧ read_file content (some l) = read_file content none := by
  refine ⟨readFileBytes_whole content l h, ?_⟩
  unfold read_file
  rw [readFileBytes_whole content l h]
  rfl

/-- C10 witness: a 2-byte file read with limit `-2` (so `|limit|` equals
the size exactly) comes back whole. -/
theorem read_file_limit_not_exceeded_witness :
    ([97, 98] : List Nat).length ≤ (-2 : Int).natAbs
    ∧ readFileBytes [97, 98] (some (-2)) = [97, 98]
    ∧ read_file [97, 98] (some (-2)) = read_file [97, 98] none :=
  ⟨by decide, (read_file_limit_not_exceeded [97, 98] (-2) (by decide)).1,
   (read_file_limit_not_exceeded [97, 98] (-2) (by decide)).2⟩

/-! ## `landscape/lib/vm_info.py`

`get_vm_info(root_path)` probes marker files under the root.  The part of
the filesystem it looks at is modelled as a record: one existence flag per
path-only marker, and an optional content (present iff the file exists)
for the two files it reads.  Python-2 semantics apply: `filter(...)` in
the `elif` returns a list, so the branch tests whether any of the three
xen marker paths exists. -/

/-- The marker files `get_vm_info` inspects under its root path. -/
structure VmRoot where
  /-- `proc/vz` exists. -/
  procVz : Bool
  /-- `proc/sys/xen` exists. -/
  procSysXen : Bool
  /-- `sys/bus/xen` exists. -/
  sysBusXen : Bool
  /-- `proc/xen` exists. -/
  procXen : Bool
  /-- `proc/cpuinfo`: `some content` iff the file exists. -/
  procCpuinfo : Option (List Char)
  /-- `sys/class/dmi/id/sys_vendor`: `some content` iff the file exists. -/
  dmiSysVendor : Option (List Char)
deriving DecidableEq

/-- Does `needle` occur at the head of `hay`? -/
def matchesAt : List Char → List Char → Bool
  | _, [] => true
  | [], _ :: _ => false
  | h :: hs, n :: ns => h == n && matchesAt hs ns

/-- Python's `needle in hay` substring test. -/
def hasSub (needle : List Char) : List Char → Bool
  | [] => matchesAt [] needle
  | c :: rest => matchesAt (c :: rest) needle || hasSub needle rest

/-- The substring the kvm check looks for in `proc/cpuinfo`. -/
def qemuNeedle : List Char := "QEMU Virtual CPU".toList

/-- The substring the vmware check looks for in the DMI vendor file. -/
def vmwareNeedle : List Char := "VMware, Inc.".toList

/-- Does `proc/cpuinfo` exist and contain `"QEMU Virtual CPU"`? -/
def cpuinfoQemu (r : VmRoot) : Bool :=
  match r.procCpuinfo with
  | some content => hasSub qemuNeedle content
  | none => false

/-- Does the DMI vendor file exist and contain `"VMware, Inc."`? -/
def dmiVmware (r : VmRoot) : Bool :=
  match r.dmiSysVendor with
  | some content => hasSub vmwareNeedle content
  | none => false

/-- The function `get_vm_info(root_path)`: openvz/xen first (mutually exclusive via
`elif`), then the kvm check overwrites the result if it matches, then the
vmware check overwrites the result if it matches. -/
def get_vm_info (r : VmRoot) : String :=
  let virt0 : String :=
    if r.procVz then "openvz"
    else if r.procSysXen || r.sysBusXen || r.procXen then "xen"
    else ""
  let virt1 : String :=
    match r.procCpuinfo with
    | some content => if hasSub qemuNeedle content then "kvm" else virt0
    | none => virt0
  match r.dmiSysVendor with
  | some content => if hasSub vmwareNeedle content then "vmware" else virt1
  | none => virt1

/-- C4: the virtualization detector — a root with only `proc/vz` present
yields `"openvz"`; one with only a QEMU-marked `proc/cpuinfo` yields
`"kvm"`; one with only a VMware-marked DMI vendor file yields `"vmware"`;
no matching marker at all yields `""`; and the last matching check wins:
a matching kvm check overwrites any openvz/xen result, and a matching
vmware check overwrites everything before it. -/
theorem get_vm_info_spec (r : VmRoot) :
    ((r.procVz = true ∧ r.procSysXen = false ∧ r.sysBusXen = false
        ∧ r.procXen = false ∧ r.procCpuinfo = none ∧ r.dmiSysVendor = none)
      → get_vm_info r = "openvz")
    ∧ ((r.procVz = false ∧ r.procSysXen = false ∧ r.sysBusXen = false
        ∧ r.procXen = false ∧ cpuinfoQemu r = true ∧ r.dmiSysVendor = none)
      → get_vm_info r = "kvm")
    ∧ ((r.procVz = false ∧ r.procSysXen = false ∧ r.sysBusXen = false
        ∧ r.procXen = false ∧ r.procCpuinfo = none ∧ dmiVmware r = true)
      → get_vm_info r = "vmware")
    ∧ ((r.procVz = false ∧ r.procSysXen = false ∧ r.sysBusXen = false
        ∧ r.procXen = false ∧ cpuinfoQemu r = false ∧ dmiVmware r = false)
      → get_vm_info r = "")
    ∧ ((cpuinfoQemu r = true ∧ dmiVmware r = false) → get_vm_info r = "kvm")
    ∧ (dmiVmware r = true → get_vm_info r = "vmware") := by
  obtain ⟨vz, x1, x2, x3, cpu, dmi⟩ := r
  refine ⟨?_, ?_, ?_, ?_, ?_, ?_⟩
  · rintro ⟨rfl, rfl, rfl, rfl, rfl, rfl⟩
    rfl
  · rintro ⟨rfl, rfl, rfl, rfl, hq, rfl⟩
    cases cpu with
    | none => simp [cpuinfoQemu] at hq
    | some cc =>
      simp only [cpuinfoQemu] at hq
      simp [get_vm_info, hq]
  · rintro ⟨rfl, rfl, rfl, rfl, rfl, hv⟩
    cases dmi with
    | none => simp [dmiVmware] at hv
    | some cv =>
      simp only [dmiVmware] at hv
      simp [get_vm_info, hv]
  · rintro ⟨rfl, rfl, rfl, rfl, hq, hv⟩
    cases cpu with
    | none =>
      cases dmi with
      | none => rfl
      | some cv =>
        simp only [dmiVmware] at hv
        simp [get_vm_info, hv]
    | some cc =>
      simp only [cpuinfoQemu] at hq
      cases dmi with
      | none => simp [get_vm_info, hq]
      | some cv =>
        simp only [dmiVmware] at hv
        simp [get_vm_info, hq, hv]
  · rintro ⟨hq, hv⟩
    cases cpu with
    | none => simp [cpuinfoQemu] at hq
    | some cc =>
      simp only [cpuinfoQemu] at hq
      cases dmi with
      | none => simp [get_vm_info, hq]
      | some cv =>
        simp only [dmiVmware] at hv
        simp [get_vm_info, hq, hv]
  · intro hv
    cases dmi with
    | none => simp [dmiVmware] at hv
    | some cv =>
      simp only [dmiVmware] at hv
      simp [get_vm_info, hv]

/-- C4 witness: the four exclusive marker configurations of the claim, and
a root where every marker matches (the vmware check, last, wins). -/
theorem get_vm_info_spec_witness :
    get_vm_info ⟨true, false, false, false, none, none⟩ = "openvz"
    ∧ get_vm_info ⟨false, false, false, false,
        some "flags : QEMU Virtual CPU version 2.5".toList, none⟩ = "kvm"
    ∧ get_vm_info ⟨false, false, false, false, none,
        some "VMware, Inc.".toList⟩ = "vmware"
    ∧ get_vm_info ⟨false, false, false, false, none, none⟩ = ""
    ∧ get_vm_info ⟨true, true, true, true,
        some "QEMU Virtual CPU".toList, some "VMware, Inc.".toList⟩
      = "vmware" :=
  ⟨(get_vm_info_spec _).1 (by decide),
   (get_vm_info_spec _).2.1 (by decide),
   (get_vm_info_spec _).2.2.1 (by decide),
   (get_vm_info_spec _).2.2.2.1 (by decide),
   (get_vm_info_spec _).2.2.2.2.2 (by decide)⟩

/-! ## `landscape/broker/registration.py`

The registration handler's state is the configuration values the
`Identity` object delegates to, the persisted secure/insecure ids, the
message store (its set of server-accepted types and its queue), and the
`_should_register` snapshot.  Boundary values obtained from helper
libraries at pre-exchange time (`get_fqdn()`, `get_vm_info()`,
`get_container_info()`, the cached juju data, and the
`is_valid_tag_list` verdict on the configured tags) are inputs of the
transition.  Firing an event and sending a message are modelled as
returning the list of fired event names and sent messages. -/

/-- The configuration fields the registration handler reads (each is
`None` or a string; Python truthiness applies). -/
structure BrokerConfig where
  computer_title : Option String
  account_name : Option String
  registration_key : Option String
  tags : Option String
  access_group : Option String
  provisioning_otp : Option String
deriving DecidableEq

/-- The `"registration"` sub-tree of the persistent store. -/
structure RegPersist where
  secure_id : Option String
  insecure_id : Option String
deriving DecidableEq

/-- A registration message dict.  Each field is a dict key; `none` stands
for an absent key (or a key whose value is Python `None` — the two are
conflated, which none of the checked properties distinguishes). -/
structure RegMessage where
  msgType : Option String := none
  hostname : Option String := none
  account_name : Option String := none
  registration_password : Option String := none
  tags : Option String := none
  vm_info : Option String := none
  access_group : Option String := none
  computer_title : Option String := none
  container_info : Option String := none
  juju_info_list : Option String := none
  otp : Option String := none
deriving DecidableEq

/-- The registration handler's state. -/
structure HandlerState where
  config : BrokerConfig
  persist : RegPersist
  /-- The message types the server currently accepts
  (`message_store.accepts`). -/
  acceptedTypes : List String
  /-- The queued outbound messages of the message store. -/
  queuedMessages : List RegMessage
  /-- The `_should_register` snapshot taken on each pre-exchange. -/
  shouldRegisterFlag : Option Bool
deriving DecidableEq

/-- The boundary inputs read during `_handle_pre_exchange`. -/
structure RegEnv where
  /-- `get_fqdn()`. -/
  fqdn : String
  /-- `get_vm_info()`. -/
  vmInfo : String
  /-- `get_container_info()`. -/
  containerInfo : String
  /-- `self._juju_data` (cached juju records, opaque here). -/
  jujuData : Option String
  /-- The verdict of `is_valid_tag_list` on the configured tags
  (`landscape/lib/tag.py` is outside the excerpt, so the verdict is an
  input). -/
  tagsValid : Bool

/-- The method `RegistrationHandler.should_register()`. -/
def shouldRegister (s : HandlerState) : Bool :=
  if truthy s.persist.secure_id then false
  else if truthy s.config.provisioning_otp then
    s.acceptedTypes.contains "register-provisioned-machine"
  else
    truthy s.config.computer_title && truthy s.config.account_name
      && s.acceptedTypes.contains "register"

/-- The method `RegistrationHandler._handle_pre_exchange()`: returns the new state,
the fired event names (in order) and the messages handed to
`exchange.send` (in order).  Logging calls are elided. -/
def preExchange (env : RegEnv) (s : HandlerState) :
    HandlerState × List String × List RegMessage :=
  let sr := shouldRegister s
  let s1 := { s with shouldRegisterFlag := some sr }
  if !sr then (s1, [], [])
  else
    let account_name := s1.config.account_name
    let group := s1.config.access_group
    let s2 := { s1 with queuedMessages := [] }
    let tags := if env.tagsValid then s1.config.tags else none
    let m0 : RegMessage :=
      { msgType := none, hostname := some env.fqdn,
        account_name := account_name, registration_password := none,
        tags := tags, vm_info := some env.vmInfo }
    let m1 := if truthy group then { m0 with access_group := group } else m0
    if truthy account_name then
      let m2 := { m1 with
        msgType := some "register",
        computer_title := s2.config.computer_title,
        registration_password := s2.config.registration_key,
        container_info := some env.containerInfo }
      let m3 := match env.jujuData with
        | some j => { m2 with juju_info_list := some j }
        | none => m2
      (s2, [], [m3])
    else if truthy s2.config.provisioning_otp then
      (s2, [], [{ msgType := some "register-provisioned-machine",
                  otp := s2.config.provisioning_otp }])
    else
      (s2, ["registration-failed"], [])

/-- A `set-id` message (`message.get("id")`,
`message.get("insecure-id")`). -/
structure SetIdMessage where
  id : Option String
  insecureId : Option String
deriving DecidableEq

/-- The method `RegistrationHandler._handle_set_id(message)`: adopt the ids from the
message, then fire `registration-done` and `resynchronize-clients`.
Logging is elided. -/
def handleSetId (msg : SetIdMessage) (s : HandlerState) :
    HandlerState × List String :=
  ({ s with persist := { secure_id := msg.id, insecure_id := msg.insecureId } },
   ["registration-done", "resynchronize-clients"])

/-- A handler state with nothing configured, no ids, an empty queue, and
both registration message types accepted by the server. -/
def emptyHandlerState : HandlerState :=
  { config := ⟨none, none, none, none, none, none⟩,
    persist := ⟨none, none⟩,
    acceptedTypes := ["register", "register-provisioned-machine"],
    queuedMessages := [],
    shouldRegisterFlag := none }

/-- A sample boundary environment for pre-exchange transitions. -/
def sampleRegEnv : RegEnv :=
  { fqdn := "host.example.com", vmInfo := "kvm", containerInfo := "",
    jujuData := none, tagsValid := true }

/-- C2 counterexample: in the state the claim describes (no secure id,
no computer title, no account name, no provisioning OTP) the pre-exchange
handler returns before the failure branch, so the `registration-failed`
event the claim promises is *not* fired (nothing is fired at all). -/
theorem preExchange_not_eligible_counterexample :
    shouldRegister emptyHandlerState = false
    ∧ ¬ ("registration-failed"
          ∈ (preExchange sampleRegEnv emptyHandlerState).2.1) := by
  decide

/-- C2 (amended): with no secure id, an unset/empty computer title and
account name and no provisioning OTP, `should_register()` is false, and a
pre-exchange tick only records the `_should_register` snapshot: it sends
no message and fires no event (in particular not `registration-failed`). -/
theorem preExchange_not_eligible (env : RegEnv) (s : HandlerState)
    (h1 : truthy s.persist.secure_id = false)
    (h2 : truthy s.config.computer_title = false)
    (h3 : truthy s.config.provisioning_otp = false) :
    shouldRegister s = false
    ∧ preExchange env s
        = ({ s with shouldRegisterFlag := some false }, [], []) := by
  have hsr : shouldRegister s = false := by
    simp [shouldRegister, h1, h2, h3]
  exact ⟨hsr, by simp [preExchange, hsr]⟩

/-- C2 witness: the amended theorem applied to the empty state. -/
theorem preExchange_not_eligible_witness :
    truthy emptyHandlerState.persist.secure_id = false
    ∧ truthy emptyHandlerState.config.computer_title = false
    ∧ truthy emptyHandlerState.config.provisioning_otp = false
    ∧ shouldRegister emptyHandlerState = false
    ∧ preExchange sampleRegEnv emptyHandlerState
        = ({ emptyHandlerState with shouldRegisterFlag := some false },
           [], []) :=
  ⟨by decide, by decide, by decide,
   (preExchange_not_eligible sampleRegEnv emptyHandlerState
      (by decide) (by decide) (by decide)).1,
   (preExchange_not_eligible sampleRegEnv emptyHandlerState
      (by decide) (by decide) (by decide)).2⟩

/-- The registration message dict as `_handle_pre_exchange` builds it on
the normal-computer path (truthy account name): base dict, optional
`access_group` key, `register` fields, optional `juju-info-list` key. -/
def builtRegisterMessage (env : RegEnv) (s : HandlerState) : RegMessage :=
  let tags := if env.tagsValid then s.config.tags else none
  let m0 : RegMessage :=
    { msgType := none, hostname := some env.fqdn,
      account_name := s.config.account_name, registration_password := none,
      tags := tags, vm_info := some env.vmInfo }
  let m1 :=
    if truthy s.config.access_group then
      { m0 with access_group := s.config.access_group }
    else m0
  let m2 := { m1 with
    msgType := some "register",
    computer_title := s.config.computer_title,
    registration_password := s.config.registration_key,
    container_info := some env.containerInfo }
  match env.jujuData with
  | some j => { m2 with juju_info_list := some j }
  | none => m2

/-- When registration is due and the account name is truthy, a
pre-exchange tick purges the queue, records the snapshot, fires nothing
and sends exactly the built `register` message. -/
theorem preExchange_eligible_eq (env : RegEnv) (s : HandlerState)
    (hsr : shouldRegister s = true)
    (hacct : truthy s.config.account_name = true) :
    preExchange env s
      = ({ s with shouldRegisterFlag := some true, queuedMessages := [] },
         [], [builtRegisterMessage env s]) := by
  obtain ⟨cfg, per, acc, qm, fl⟩ := s
  cases hga : truthy cfg.access_group <;> cases hj : env.jujuData <;>
    simp_all [preExchange, builtRegisterMessage]

/-- The fields of the built `register` message that C6 talks about. -/
theorem builtRegisterMessage_fields (env : RegEnv) (s : HandlerState) :
    (builtRegisterMessage env s).msgType = some "register"
    ∧ (builtRegisterMessage env s).hostname = some env.fqdn
    ∧ (builtRegisterMessage env s).account_name = s.config.account_name
    ∧ (builtRegisterMessage env s).vm_info = some env.vmInfo := by
  cases hga : truthy s.config.access_group <;> cases hj : env.jujuData <;>
    simp [builtRegisterMessage, hga, hj]

/-- A state satisfying C6's premises (no secure id, computer title and
account name set, `register` accepted) in which a provisioning OTP is also
configured while `register-provisioned-machine` is not accepted. -/
def otpBlockedState : HandlerState :=
  { config := ⟨some "mytitle", some "myaccount", none, none, none,
               some "sekrit-otp"⟩,
    persist := ⟨none, none⟩,
    acceptedTypes := ["register"],
    queuedMessages := [],
    shouldRegisterFlag := none }

/-- C6 counterexample: `otpBlockedState` has no secure id, a non-empty
computer title and account name, and a transport accepting `register`,
yet a pre-exchange tick sends nothing: the configured provisioning OTP
routes `should_register()` through the `register-provisioned-machine`
acceptance check, which fails. -/
theorem preExchange_sends_register_counterexample :
    truthy otpBlockedState.persist.secure_id = false
    ∧ truthy otpBlockedState.config.computer_title = true
    ∧ truthy otpBlockedState.config.account_name = true
    ∧ otpBlockedState.acceptedTypes.contains "register" = true
    ∧ (preExchange sampleRegEnv otpBlockedState).2.2 = [] := by
  decide

/-- C6 (amended): with no secure id, a non-empty computer title and
account name, the transport accepting `register`, and either no
provisioning OTP configured or the transport also accepting
`register-provisioned-machine`, a pre-exchange tick deletes all queued
outbound messages, fires nothing, and sends exactly one message of type
`register` carrying the hostname, the configured account name, and the
virtualization info. -/
theorem preExchange_sends_register (env : RegEnv) (s : HandlerState)
    (h1 : truthy s.persist.secure_id = false)
    (h2 : truthy s.config.computer_title = true)
    (h3 : truthy s.config.account_name = true)
    (h4 : s.acceptedTypes.contains "register" = true)
    (h5 : truthy s.config.provisioning_otp = false
          ∨ s.acceptedTypes.contains "register-provisioned-machine" = true) :
    (preExchange env s).1.queuedMessages = []
    ∧ (preExchange env s).2.1 = []
    ∧ ∃ m : RegMessage, (preExchange env s).2.2 = [m]
        ∧ m.msgType = some "register"
        ∧ m.hostname = some env.fqdn
        ∧ m.account_name = s.config.account_name
        ∧ m.vm_info = some env.vmInfo := by
  have hsr : shouldRegister s = true := by
    unfold shouldRegister
    rw [h1, if_neg (by decide : ¬ (false = true))]
    by_cases hotp : truthy s.config.provisioning_otp = true
    · rw [if_pos hotp]
      rcases h5 with h5 | h5
      · rw [h5] at hotp
        cases hotp
      · exact h5
    · rw [if_neg hotp, h2, h3, h4]
      rfl
  have heq := preExchange_eligible_eq env s hsr h3
  have hf := builtRegisterMessage_fields env s
  rw [heq]
  exact ⟨rfl, rfl, builtRegisterMessage env s, rfl,
    hf.1, hf.2.1, hf.2.2.1, hf.2.2.2⟩

/-- C6 witness: the amended theorem applied to a concrete eligible state
with one stale queued message, which the tick purges. -/
theorem preExchange_sends_register_witness :
    (preExchange sampleRegEnv
        { config := ⟨some "mytitle", some "myaccount", none, none, none,
                     none⟩,
          persist := ⟨none, none⟩,
          acceptedTypes := ["register"],
          queuedMessages := [{ msgType := some "test" }],
          shouldRegisterFlag := none }).1.queuedMessages = []
    ∧ (preExchange sampleRegEnv
        { config := ⟨some "mytitle", some "myaccount", none, none, none,
                     none⟩,
          persist := ⟨none, none⟩,
          acceptedTypes := ["register"],
          queuedMessages := [{ msgType := some "test" }],
          shouldRegisterFlag := none }).2.1 = []
    ∧ ∃ m : RegMessage, (preExchange sampleRegEnv
        { config := ⟨some "mytitle", some "myaccount", none, none, none,
                     none⟩,
          persist := ⟨none, none⟩,
          acceptedTypes := ["register"],
          queuedMessages := [{ msgType := some "test" }],
          shouldRegisterFlag := none }).2.2 = [m]
        ∧ m.msgType = some "register"
        ∧ m.hostname = some sampleRegEnv.fqdn
        ∧ m.account_name = some "myaccount"
        ∧ m.vm_info = some sampleRegEnv.vmInfo :=
  preExchange_sends_register sampleRegEnv _
    (by decide) (by decide) (by decide) (by decide) (Or.inl (by decide))

/-- C7: a `set-id` message with `id="ABC1234567890"` and no insecure id
makes the handler store that value as the identity's secure id and fire
`registration-done` then `resynchronize-clients`. -/
theorem handleSetId_sets_id_and_fires (s : HandlerState) :
    (handleSetId ⟨some "ABC1234567890", none⟩ s).1.persist.secure_id
        = some "ABC1234567890"
    ∧ (handleSetId ⟨some "ABC1234567890", none⟩ s).1.persist.insecure_id
        = none
    ∧ (handleSetId ⟨some "ABC1234567890", none⟩ s).2
        = ["registration-done", "resynchronize-clients"] :=
  ⟨rfl, rfl, rfl⟩

/-! ## `RegistrationResponse` (registration response correlator)

The correlator subscribes `_done` to `registration-done` and `_failed` to
`registration-failed`; whichever handler runs first resolves the deferred
and cancels both subscriptions.  A handler runs only while its
subscription is live, so the deferred is resolved at most once. -/

/-- How a registration attempt's deferred was resolved. -/
inductive RegOutcome where
  | success
  | invalidCredentials
deriving DecidableEq

/-- The correlator's state: which of the two subscriptions are still
live, and the deferred's resolution if any. -/
structure RRState where
  doneSubscribed : Bool
  failedSubscribed : Bool
  result : Option RegOutcome
deriving DecidableEq

/-- The state right after `RegistrationResponse.__init__`: both
subscriptions live, deferred pending. -/
def RRState.start : RRState := ⟨true, true, none⟩

/-- The two reactor events the correlator listens to. -/
inductive RegEvent where
  | done
  | failed
deriving DecidableEq

/-- The resolution produced by each event's handler: `_done` calls back
with `None`, `_failed` errbacks with `InvalidCredentialsError`. -/
def RegEvent.outcome : RegEvent → RegOutcome
  | .done => .success
  | .failed => .invalidCredentials

/-- Firing one reactor event: the corresponding handler runs only if its
subscription is still live; it resolves the deferred and cancels both
subscriptions (`_cancel_calls`). -/
def fireRegEvent (s : RRState) (e : RegEvent) : RRState :=
  match e with
  | .done =>
    if s.doneSubscribed then
      { doneSubscribed := false, failedSubscribed := false,
        result := some .success }
    else s
  | .failed =>
    if s.failedSubscribed then
      { doneSubscribed := false, failedSubscribed := false,
        result := some .invalidCredentials }
    else s

/-- Firing a whole sequence of events against a fresh correlator. -/
def runRegEvents (evs : List RegEvent) : RRState :=
  evs.foldl fireRegEvent RRState.start

/-- Once both subscriptions are cancelled, no event changes the state. -/
theorem fireRegEvent_resolved (res : Option RegOutcome) (e : RegEvent) :
    fireRegEvent ⟨false, false, res⟩ e = ⟨false, false, res⟩ := by
  cases e <;> rfl

/-- No sequence of events changes a state with cancelled subscriptions. -/
theorem runFrom_resolved (evs : List RegEvent) (res : Option RegOutcome) :
    evs.foldl fireRegEvent ⟨false, false, res⟩ = ⟨false, false, res⟩ := by
  induction evs with
  | nil => rfl
  | cons e evs ih => rw [List.foldl_cons, fireRegEvent_resolved, ih]

/-- C5: for every sequence of `registration-done` / `registration-failed`
firings, the first event alone resolves the deferred — successfully for
`registration-done`, with invalid credentials for `registration-failed` —
and cancels both subscriptions, so no later event re-resolves it. -/
theorem registrationResponse_single_resolution
    (e : RegEvent) (evs : List RegEvent) :
    runRegEvents (e :: evs) = ⟨false, false, some e.outcome⟩ := by
  have hfirst : fireRegEvent RRState.start e
      = ⟨false, false, some e.outcome⟩ := by
    cases e <;> rfl
  rw [runRegEvents, List.foldl_cons, hfirst, runFrom_resolved]

/-! ## `landscape/configuration.py` — `setup(config)`

`setup` is modelled as a pure transition that records, in order, the
mutating `SysVConfig` calls and the configuration write it performs, and
the way it terminates.  User input on the boot prompt and the environment
proxies are boundary inputs.  The interactive wizard
(`LandscapeSetupScript.run`, only prompts and in-memory config edits) is a
boundary input as well: an arbitrary transformation of the configuration.
-/

/-- The fields of `LandscapeSetupConfiguration` that `setup` reads. -/
structure SetupConfig where
  no_start : Bool
  silent : Bool
  ok_no_register : Bool
  account_name : Option String
  computer_title : Option String
  http_proxy : Option String
  https_proxy : Option String
  script_users : Option String
  /-- `include_manager_plugins`, a plain string defaulting to `""`. -/
  include_manager_plugins : String
deriving DecidableEq

/-- The external calls `setup` can make, in the order it makes them. -/
inductive SysAction where
  /-- `SysVConfig.is_configured_to_run()` (query). -/
  | isConfiguredQuery
  /-- The interactive "Start Landscape client on boot?" prompt. -/
  | promptBootStart
  /-- `SysVConfig.set_start_on_boot(b)`. -/
  | setStartOnBoot (b : Bool)
  /-- `config.write()`. -/
  | writeConfig
  /-- `SysVConfig.restart_landscape()`. -/
  | restartLandscape
deriving DecidableEq

/-- How `setup` terminates. -/
inductive SetupOutcome where
  /-- Normal return. -/
  | completed
  /-- `ConfigurationError` raised (silent mode, missing account name or
  computer title). -/
  | configError
  /-- `sys.exit("Aborting Landscape configuration")` after a "no" on the
  boot prompt. -/
  | abortedBootPrompt
  /-- `sys.exit(code)` after a failed service restart. -/
  | exitedWithCode (code : Nat)
deriving DecidableEq

/-- The boundary inputs of `setup`. -/
structure SetupEnv where
  /-- `SysVConfig.is_configured_to_run()`. -/
  isConfiguredToRun : Bool
  /-- The operator's answer to the boot prompt. -/
  bootAnswer : String
  /-- `os.environ.get("http_proxy")`. -/
  envHttpProxy : Option String
  /-- `os.environ.get("https_proxy")`. -/
  envHttpsProxy : Option String
  /-- The effect of the interactive wizard on the configuration. -/
  runScript : SetupConfig → SetupConfig
  /-- Whether `SysVConfig.restart_landscape()` succeeds (else it raises
  `ProcessError`). -/
  restartSucceeds : Bool

/-- The test `answer.upper().startswith("N")`: the answer's first character is an
`n` (either case). -/
def answerIsNo (ans : String) : Bool :=
  match ans.toList with
  | [] => false
  | c :: _ => c == 'N' || c == 'n'

/-- The tail of `setup` after the silent/interactive branch:
`config.write()`, then — unless `no_start` — the service restart, exiting
with code 2 (0 with `ok_no_register`) if the restart fails. -/
def finishSetup (acts : List SysAction) (cfg : SetupConfig)
    (env : SetupEnv) : List SysAction × SetupOutcome × SetupConfig :=
  let acts := acts ++ [SysAction.writeConfig]
  if cfg.no_start then (acts, SetupOutcome.completed, cfg)
  else if env.restartSucceeds then
    (acts ++ [SysAction.restartLandscape], SetupOutcome.completed, cfg)
  else
    (acts ++ [SysAction.restartLandscape],
     SetupOutcome.exitedWithCode (if cfg.ok_no_register then 0 else 2), cfg)

/-- The `http_proxy` fallback from the environment: taken from the
environment when the configured value is exactly `None` and the
environment variable is truthy. -/
def httpProxyFallback (cfg : SetupConfig) (env : SetupEnv) : SetupConfig :=
  if cfg.http_proxy = none && truthy env.envHttpProxy then
    { cfg with http_proxy := env.envHttpProxy }
  else cfg

/-- The `https_proxy` fallback from the environment. -/
def httpsProxyFallback (cfg : SetupConfig) (env : SetupEnv) : SetupConfig :=
  if cfg.https_proxy = none && truthy env.envHttpsProxy then
    { cfg with https_proxy := env.envHttpsProxy }
  else cfg

/-- Both proxy fallbacks, in the order `setup` performs them. -/
def proxyFallback (cfg : SetupConfig) (env : SetupEnv) : SetupConfig :=
  httpsProxyFallback (httpProxyFallback cfg env) env

/-- The proxy fallback only touches the two proxy fields. -/
theorem proxyFallback_preserves (cfg : SetupConfig) (env : SetupEnv) :
    (proxyFallback cfg env).silent = cfg.silent
    ∧ (proxyFallback cfg env).account_name = cfg.account_name
    ∧ (proxyFallback cfg env).computer_title = cfg.computer_title
    ∧ (proxyFallback cfg env).no_start = cfg.no_start := by
  unfold proxyFallback httpsProxyFallback httpProxyFallback
  split <;> split <;> exact ⟨rfl, rfl, rfl, rfl⟩

/-- The function `setup(config)`: boot-start phase, proxy fallback from the
environment, silent-mode validation (or the interactive wizard), write,
restart.  Returns the ordered trace of external calls, the outcome, and
the final configuration. -/
def setup (cfg : SetupConfig) (env : SetupEnv) :
    List SysAction × SetupOutcome × SetupConfig :=
  let phase1 : List SysAction × Option SetupOutcome :=
    if cfg.no_start then ([], none)
    else if cfg.silent then ([SysAction.setStartOnBoot true], none)
    else if env.isConfiguredToRun then ([SysAction.isConfiguredQuery], none)
    else if answerIsNo env.bootAnswer then
      ([SysAction.isConfiguredQuery, SysAction.promptBootStart],
       some SetupOutcome.abortedBootPrompt)
    else
      ([SysAction.isConfiguredQuery, SysAction.promptBootStart,
        SysAction.setStartOnBoot true], none)
  match phase1 with
  | (acts, some outcome) => (acts, outcome, cfg)
  | (acts, none) =>
    let cfg2 := proxyFallback cfg env
    if cfg2.silent then
      if !truthy cfg2.account_name || !truthy cfg2.computer_title then
        (acts, SetupOutcome.configError, cfg2)
      else
        let cfg3 :=
          if truthy cfg2.script_users && cfg2.include_manager_plugins.isEmpty
          then { cfg2 with include_manager_plugins := "ScriptExecution" }
          else cfg2
        finishSetup acts cfg3 env
    else
      finishSetup acts (env.runScript cfg2) env

/-- A silent configuration without an account name (`no_start` unset). -/
def silentNoAccountConfig : SetupConfig :=
  { no_start := false, silent := true, ok_no_register := false,
    account_name := none, computer_title := some "mytitle",
    http_proxy := none, https_proxy := none, script_users := none,
    include_manager_plugins := "" }

/-- A sample boundary environment for `setup`. -/
def sampleSetupEnv : SetupEnv :=
  { isConfiguredToRun := false, bootAnswer := "", envHttpProxy := none,
    envHttpsProxy := none, runScript := id, restartSucceeds := true }

/-- C3 counterexample: in silent mode with no account name and `no_start`
unset, `setup` does raise `ConfigurationError` — but only *after*
performing the boot-start configuration (`set_start_on_boot(True)`), so
the error does not precede every service call as claimed. -/
theorem setup_silent_missing_account_counterexample :
    (setup silentNoAccountConfig sampleSetupEnv).2.1
        = SetupOutcome.configError
    ∧ (setup silentNoAccountConfig sampleSetupEnv).1
        = [SysAction.setStartOnBoot true] := by
  constructor <;> rfl

/-- C3 (amended): with silent set and account name (or computer title)
unset, `setup` raises `ConfigurationError` before writing the
configuration and before any service restart; however, unless `no_start`
is set, the boot-start configuration step `set_start_on_boot(True)` is
performed *before* the error is raised (with `no_start` set no external
call at all precedes the error). -/
theorem setup_silent_missing_required (cfg : SetupConfig) (env : SetupEnv)
    (hs : cfg.silent = true)
    (hm : truthy cfg.account_name = false
          ∨ truthy cfg.computer_title = false) :
    (setup cfg env).2.1 = SetupOutcome.configError
    ∧ SysAction.writeConfig ∉ (setup cfg env).1
    ∧ SysAction.restartLandscape ∉ (setup cfg env).1
    ∧ (setup cfg env).1
        = (if cfg.no_start then [] else [SysAction.setStartOnBoot true]) := by
  obtain ⟨hp1, hp2, hp3, _⟩ := proxyFallback_preserves cfg env
  have hmiss : (!truthy (proxyFallback cfg env).account_name
      || !truthy (proxyFallback cfg env).computer_title) = true := by
    rw [hp2, hp3]
    rcases hm with hm | hm <;> rw [hm] <;> simp
  have hsil : (proxyFallback cfg env).silent = true := by rw [hp1, hs]
  have key : setup cfg env
      = ((if cfg.no_start then [] else [SysAction.setStartOnBoot true]),
         SetupOutcome.configError, proxyFallback cfg env) := by
    cases hns : cfg.no_start <;>
      simp only [setup, hns, hs, if_true, if_false, Bool.false_eq_true,
        Bool.true_eq_false, ite_true, ite_false, hsil, hmiss]
  rw [key]
  cases hns : cfg.no_start <;> simp

/-- The C3 configuration with `no_start` set: here nothing at all precedes
the error. -/
def silentNoAccountNoStartConfig : SetupConfig :=
  { silentNoAccountConfig with no_start := true }

/-- C3 witness: the amended theorem applied to the `no_start` variant of
the silent, account-less configuration. -/
theorem setup_silent_missing_required_witness :
    (setup silentNoAccountNoStartConfig sampleSetupEnv).2.1
        = SetupOutcome.configError
    ∧ SysAction.writeConfig
        ∉ (setup silentNoAccountNoStartConfig sampleSetupEnv).1
    ∧ SysAction.restartLandscape
        ∉ (setup silentNoAccountNoStartConfig sampleSetupEnv).1
    ∧ (setup silentNoAccountNoStartConfig sampleSetupEnv).1
        = (if silentNoAccountNoStartConfig.no_start then []
           else [SysAction.setStartOnBoot true]) :=
  setup_silent_missing_required silentNoAccountNoStartConfig sampleSetupEnv
    (by decide) (Or.inl (by decide))

/-! ## Storage-usage (ceph) monitor plugin — exchange behaviour

`landscape/monitor/cephusage.py` itself is not part of the source excerpt;
only its test file is.  The plugin's exchange-time behaviour is therefore
modelled from the specification (§4.8): `create_message()` returns
`{type: "ceph", ring-id: _ceph_ring_id, usages: _ceph_usage_points}`, and
on each exchange cycle the message is queued iff the accumulated
usage-point list is non-empty and the server accepts type `"ceph"`. -/

/-- A usage sample `(timestamp, total-GB, available-GB, used-GB)`. -/
abbrev CephPoint := Nat × Rat × Rat × Rat

/-- Modelled from the spec: the accumulated state of the `CephUsage`
plugin (`landscape/monitor/cephusage.py` is missing from the excerpt) —
`_ceph_ring_id` and `_ceph_usage_points`. -/
structure CephState where
  ringId : Option String
  usagePoints : List CephPoint
deriving DecidableEq

/-- A queued `ceph` message. -/
structure CephMessage where
  msgType : String
  ringId : Option String
  usages : List CephPoint
deriving DecidableEq

/-- Modelled from the spec: `CephUsage.create_message()` returns
`{type: "ceph", ring-id: _ceph_ring_id, usages: _ceph_usage_points}`. -/
def cephCreateMessage (s : CephState) : CephMessage :=
  { msgType := "ceph", ringId := s.ringId, usages := s.usagePoints }

/-- Modelled from the spec: the plugin's exchange hook — the messages
queued during one exchange cycle given the server's accepted types: none
when the usage-point list is empty, otherwise the single created message,
provided type `"ceph"` is accepted. -/
def cephExchange (accepts : List String) (s : CephState) :
    List CephMessage :=
  if s.usagePoints.isEmpty then []
  else if accepts.contains "ceph" then [cephCreateMessage s]
  else []

/-- C8: with the server accepting type `"ceph"`, an exchange cycle with an
empty usage-point list queues zero messages, and one with a non-empty
list queues exactly one message of type `"ceph"` whose ring id and usages
equal the plugin's accumulated state. -/
theorem cephusage_exchange_messages (accepts : List String) (s : CephState)
    (hacc : accepts.contains "ceph" = true) :
    (s.usagePoints = [] → cephExchange accepts s = [])
    ∧ (s.usagePoints ≠ [] →
        cephExchange accepts s
          = [{ msgType := "ceph", ringId := s.ringId,
               usages := s.usagePoints }]) := by
  constructor
  · intro he
    simp [cephExchange, he]
  · intro hne
    have hie : s.usagePoints.isEmpty = false := by
      cases hp : s.usagePoints with
      | nil => exact absurd hp hne
      | cons a t => rfl
    have hmem : "ceph" ∈ accepts := by simpa using hacc
    simp [cephExchange, cephCreateMessage, hie, hmem]

/-- C8 witness: the two scenarios of the plugin's tests — an empty point
list queues nothing; ring id `"whatever"` with point `(60, 100, 80, 20)`
queues exactly the matching `ceph` message. -/
theorem cephusage_exchange_messages_witness :
    (["ceph"] : List String).contains "ceph" = true
    ∧ cephExchange ["ceph"] { ringId := some "whatever", usagePoints := [] }
        = []
    ∧ cephExchange ["ceph"]
        { ringId := some "whatever", usagePoints := [(60, 100, 80, 20)] }
      = [{ msgType := "ceph", ringId := some "whatever",
           usages := [(60, 100, 80, 20)] }] :=
  ⟨by decide,
   (cephusage_exchange_messages ["ceph"] _ (by decide)).1 rfl,
   (cephusage_exchange_messages ["ceph"] _ (by decide)).2 (by decide)⟩
